import Mathlib

/-!
Verification of the note-taking backend (`src/index.js`, `src/models/user.model.js`).

The Express handlers are embedded as pure Lean functions over an explicit
account store (`List User`) and note store (`List Note`).  Each handler is
translated from the body of the corresponding route handler in
`src/index.js`, after the express-validator step (input-shape validation is
an external collaborator per the specification).  MongoDB collaborator calls
are embedded as list operations: `findOne filter` is `List.find?` on the
filter's predicate, `save` replaces the document with the same `_id`,
`deleteOne filter` erases the first matching document, and
`find(...).sort({isPinned: -1})` is a stable descending sort on the boolean
`isPinned` key.

The bcrypt collaborator is embedded as an invertible stand-in that preserves
exactly the properties the handlers rely on: `bcryptHash` is deterministic
given the salt, produces a string in the bcrypt output format
(`$2b$10$` cost-and-salt header followed by a digest), and is syntactically
distinct from its input; `bcryptCompare password h` succeeds exactly when
`h` was produced by hashing `password` (with whatever salt its header
records), matching the verification contract of `bcrypt.compare`.

The jsonwebtoken collaborator is embedded with an ideal unforgeable MAC: a
token records its payload, issued-at time, expiry, and a signature value
that an honest signer always sets to the authentic tuple
`(secret, payload, iat, exp)`; a forger can set it to anything else.  Token
structure equality stands for token-string equality (the serialization of
`(payload, iat, exp, sig)` into a JWT string is injective).
-/

namespace NoteApp

/-- An account document, per the `userSchema` of `src/models/user.model.js`:
`fullName`, `email`, `password` (the bcrypt hash string), `createdOn`, plus
the store-assigned `_id`. -/
structure User where
  id : Nat
  fullName : String
  email : String
  password : String
  createdOn : Nat
deriving DecidableEq, Repr

/-- A note document, per `noteSchema`: `title`, `content`, `tags`,
`isPinned` (default false), `userId` (the owner), `createdOn`, plus the
store-assigned `_id`. -/
structure Note where
  id : Nat
  title : String
  content : String
  tags : List String
  isPinned : Bool
  userId : Nat
  createdOn : Nat
deriving DecidableEq, Repr

/-- Model of `bcrypt.hash(password, 10)`: a cost-and-salt header in the
bcrypt output format followed by the (here: invertible) digest of the
password. -/
def bcryptHash (password : String) (salt : Char) : String :=
  ⟨'$' :: '2' :: 'b' :: '$' :: '1' :: '0' :: '$' :: salt :: password.data⟩

/-- Model of `bcrypt.compare(password, h)`: succeeds exactly when `h` is
the bcrypt hash of `password` under the salt recorded in the header of
`h`, and fails on malformed hashes. -/
def bcryptCompare (password h : String) : Bool :=
  match h.data with
  | '$' :: '2' :: 'b' :: '$' :: '1' :: '0' :: '$' :: _ :: rest => rest == password.data
  | _ => false

/-- The JWT payload: both `jwt.sign` call sites in `src/index.js` sign
`{ user }`, the full account document. -/
structure TokenPayload where
  user : User
deriving DecidableEq, Repr

/-- Ideal-MAC signature value: an honest signer with `secret` over
`(payload, iat, exp)` produces exactly this tuple; any other value is a
forgery and fails verification. -/
structure Signature where
  secret : Nat
  payload : TokenPayload
  iat : Nat
  exp : Nat
deriving DecidableEq, Repr

/-- A signed token: payload, issued-at, expiry, signature. -/
structure Token where
  payload : TokenPayload
  iat : Nat
  exp : Nat
  sig : Signature
deriving DecidableEq, Repr

/-- `jwt.sign({ user }, secret, { expiresIn: "1h" })` at time `now`
(seconds): issued-at `now`, expiry `now + 3600`, authentic signature. -/
def jwtSign (secret : Nat) (p : TokenPayload) (now : Nat) : Token :=
  { payload := p, iat := now, exp := now + 3600
    sig := { secret := secret, payload := p, iat := now, exp := now + 3600 } }

inductive TokenError where
  | invalidToken
  | expiredToken
deriving DecidableEq, Repr

/-- Modelled from the spec: the `authenticateToken` middleware is imported
from `./utilities`, which is not among the repository sources; §4.2 of the
specification defines the missing `ValidateToken`: verify the signature
against the process-wide secret (failing with `InvalidToken`), then check
expiry against the current time (failing with `ExpiredToken`), then return
the embedded identity.  The expiry test follows jsonwebtoken: a token is
expired at every time at or after `exp`. -/
def validateToken (secret : Nat) (t : Token) (now : Nat) :
    Except TokenError TokenPayload :=
  if t.sig ≠ { secret := secret, payload := t.payload, iat := t.iat, exp := t.exp } then
    .error .invalidToken
  else if t.exp ≤ now then
    .error .expiredToken
  else
    .ok t.payload

/-- The JSON bodies the handlers send.  `jsonError status message` is a
`{ error: true, message }` body with the given HTTP status;
`emptyStatus status` is a bare `res.status(status)` with no body at all. -/
inductive Response where
  | registerOk (user : User) (accessToken : Token) (message : String)
  | loginOk (email : String) (accessToken : Token) (message : String)
  | getUserOk (fullName email : String) (id createdOn : Nat) (message : String)
  | noteOk (note : Note) (message : String)
  | notesOk (notes : List Note) (message : String)
  | deleteOk (message : String)
  | jsonError (status : Nat) (message : String)
  | emptyStatus (status : Nat)
deriving DecidableEq, Repr

/-- The string values a response body carries outside the opaque token
string (the token's contents are not listed: they are reachable only
through the signed token). -/
def Response.exposedStrings : Response → List String
  | .registerOk u _ m => [u.fullName, u.email, u.password, m]
  | .loginOk e _ m => [e, m]
  | .getUserOk f e _ _ m => [f, e, m]
  | .noteOk n m => n.title :: n.content :: m :: n.tags
  | .notesOk ns m => m :: ns.map Note.title
  | .deleteOk m => [m]
  | .jsonError _ m => [m]
  | .emptyStatus _ => []

/-- A response that reports a failure (an error body or a bare error
status), as opposed to a success body. -/
def Response.isFailure : Response → Bool
  | .jsonError _ _ => true
  | .emptyStatus _ => true
  | _ => false

/-- A failure response that carries an explicit error object: the
`{ error: true, message }` shape with a non-empty message. -/
def Response.hasExplicitError : Response → Bool
  | .jsonError _ m => !m.isEmpty
  | _ => false

/-- The account document built by `/create-account` from validated input:
the bcrypt hash is stored in place of the raw password, and the store
assigns the fresh `_id` and the creation timestamp. -/
def newUser (fullName email password : String) (salt : Char) (now : Nat)
    (store : List User) : User :=
  { id := store.length, fullName := fullName, email := email
    password := bcryptHash password salt, createdOn := now }

/-- `POST /create-account` (`src/index.js` lines 57-84), after validation:
look up an existing account by email; if found, 400 "User already exists";
otherwise hash the password, persist the new account and answer with the
full user document plus a fresh token. -/
def createAccount (fullName email password : String) (salt : Char)
    (secret now : Nat) (store : List User) : Response × List User :=
  match store.find? (fun u => u.email == email) with
  | some _ => (.jsonError 400 "User already exists", store)
  | none =>
    let user := newUser fullName email password salt now store
    (.registerOk user (jwtSign secret { user := user } now)
      "Registration Successful", store ++ [user])

/-- The catch block of `/create-account` (`src/index.js` lines 85-90):
any error thrown by the store during registration is answered with a
generic 500 "Internal Server Error", whatever the error was. -/
inductive StoreError where
  | duplicateKey
  | unavailable
deriving DecidableEq, Repr

def createAccountCatch : StoreError → Response :=
  fun _ => .jsonError 500 "Internal Server Error"

/-- `POST /login` (`src/index.js` lines 125-153), after validation: look
up the account by email (400 "User not found, check your email" if
absent), compare the password with `bcrypt.compare`, and on match answer
with the email and a fresh token; otherwise 400 "Invalid Credential". -/
def login (email password : String) (secret now : Nat)
    (store : List User) : Response :=
  match store.find? (fun u => u.email == email) with
  | none => .jsonError 400 "User not found, check your email"
  | some userInfo =>
    if userInfo.email == email && bcryptCompare password userInfo.password then
      .loginOk email (jwtSign secret { user := userInfo } now) "Login Successfull"
    else
      .jsonError 400 "Invalid Credential"

/-- `GET /get-user` (`src/index.js` lines 164-193): `tokenUser` is the
account carried by the validated token (`req.user.user`); look it up by
`_id`; if absent, a bare `res.status(401)` with no body; otherwise a
profile body of fullName, email, `_id` and createdOn. -/
def getUser (tokenUser : User) (store : List User) : Response :=
  match store.find? (fun u => u.id == tokenUser.id) with
  | none => .emptyStatus 401
  | some isUser =>
    .getUserOk isUser.fullName isUser.email isUser.id isUser.createdOn
      "User retrieved successfully"

/-- Mongoose `document.save()` after in-place edits: persist the document
under its `_id`. -/
def saveNote (n : Note) (store : List Note) : List Note :=
  store.map (fun m => if m.id == n.id then n else m)

/-- JavaScript truthiness of an optional string field (`undefined` and
`""` are falsy). -/
def truthyStr : Option String → Bool
  | none => false
  | some s => !s.isEmpty

/-- `PUT /edit-notes/:noteId` (`src/index.js` lines 284-324), after
validation: reject when no change is provided, find the note by
`{ _id: noteId, userId: user._id }` (400 "Notes not found" on a miss),
apply every truthy field in place (the `if (isPinned)` guard lets this
route only set `isPinned` to true), and save. -/
def editNotes (userId noteId : Nat) (title content : Option String)
    (tags : Option (List String)) (isPinned : Option Bool)
    (store : List Note) : Response × List Note :=
  if !truthyStr title && !truthyStr content && !tags.isSome then
    (.jsonError 400 "No Changes Provided", store)
  else
    match store.find? (fun n => n.id == noteId && n.userId == userId) with
    | none => (.jsonError 400 "Notes not found", store)
    | some note =>
      let n1 := if truthyStr title then { note with title := title.getD note.title } else note
      let n2 := if truthyStr content then { n1 with content := content.getD n1.content } else n1
      let n3 := if tags.isSome then { n2 with tags := tags.getD n2.tags } else n2
      let n4 := if isPinned.getD false then { n3 with isPinned := true } else n3
      (.noteOk n4 "Note has been updated", saveNote n4 store)

/-- `DELETE /delete-note/:noteId` (`src/index.js` lines 346-371): find the
note by `{ userId: user._id, _id: noteId }` (400 "Note not found" on a
miss), then `deleteOne` with the same joint filter. -/
def deleteNote (userId noteId : Nat) (store : List Note) :
    Response × List Note :=
  match store.find? (fun n => n.userId == userId && n.id == noteId) with
  | none => (.jsonError 400 "Note not found", store)
  | some _ =>
    (.deleteOk "Note deleted successfully",
      store.eraseP (fun n => n.id == noteId && n.userId == userId))

/-- The query of `GET /get-all-notes` (`src/index.js` line 331):
`Note.find({ userId: user._id }).sort({ isPinned: -1 })` — the requesting
user's notes, sorted by `isPinned` descending (realized as the stable
partition: pinned notes first, unpinned after). -/
def getAllNotes (userId : Nat) (store : List Note) : List Note :=
  let mine := store.filter (fun n => n.userId == userId)
  mine.filter (fun n => n.isPinned) ++ mine.filter (fun n => !n.isPinned)

/-- `GET /get-all-notes` response body. -/
def getAllNotesHandler (userId : Nat) (store : List Note) : Response :=
  .notesOk (getAllNotes userId store) "All notes retrieved successfully"

/-- Field options declared by `userSchema` in `src/models/user.model.js`.
The live schema declares plain types only; in particular no `unique`
option appears on any field (a `unique: true` email appears only inside a
commented-out "later on" block). -/
structure SchemaField where
  fieldType : String
  required : Bool := false
  unique : Bool := false
deriving DecidableEq, Repr

def userSchema : List (String × SchemaField) :=
  [("fullName", { fieldType := "String" }),
   ("email", { fieldType := "String" }),
   ("password", { fieldType := "String" }),
   ("createdOn", { fieldType := "Date" })]

/-- Whether `userSchema` declares a unique constraint on the named field. -/
def schemaFieldUnique (name : String) : Bool :=
  match userSchema.find? (fun f => f.1 == name) with
  | some f => f.2.unique
  | none => false

/-! ## Helper lemmas -/

theorem bcryptHash_data (password : String) (salt : Char) :
    (bcryptHash password salt).data =
      '$' :: '2' :: 'b' :: '$' :: '1' :: '0' :: '$' :: salt :: password.data := rfl

theorem bcryptCompare_bcryptHash (password : String) (salt : Char) :
    bcryptCompare password (bcryptHash password salt) = true := by
  show (password.data == password.data) = true
  simp

theorem bcryptHash_ne (password : String) (salt : Char) :
    bcryptHash password salt ≠ password := by
  intro h
  have h2 := congrArg String.data h
  rw [bcryptHash_data] at h2
  have h3 := congrArg List.length h2
  simp at h3
  omega

theorem bcryptHash_head (password : String) (salt : Char) :
    (bcryptHash password salt).data.head? = some '$' := rfl

theorem bcryptHash_ne_of_head (password : String) (salt : Char) (s : String)
    (h : s.data.head? ≠ some '$') : bcryptHash password salt ≠ s := by
  intro he
  exact h (he ▸ bcryptHash_head password salt)

theorem find?_append_none {α : Type} (p : α → Bool) (l1 l2 : List α)
    (h : l1.find? p = none) : (l1 ++ l2).find? p = l2.find? p := by
  simp [List.find?_append, h]

theorem newUser_email (fullName email password : String) (salt : Char)
    (now : Nat) (store : List User) :
    (newUser fullName email password salt now store).email = email := rfl

theorem newUser_password (fullName email password : String) (salt : Char)
    (now : Nat) (store : List User) :
    (newUser fullName email password salt now store).password =
      bcryptHash password salt := rfl

/-! ## Claim theorems -/

/-- C2: a registration whose email already has an account fails with the
DuplicateAccount error ("User already exists", status 400) and leaves the
account store unchanged. -/
theorem c2_duplicate_register_fails_store_unchanged
    (fullName email password : String) (salt : Char) (secret now : Nat)
    (store : List User) (u : User)
    (hdup : store.find? (fun v => v.email == email) = some u) :
    createAccount fullName email password salt secret now store =
      (.jsonError 400 "User already exists", store) := by
  unfold createAccount
  rw [hdup]

def alicePrior : User :=
  { id := 0, fullName := "Alice A", email := "alice@x.com"
    password := bcryptHash "pass1" 'X', createdOn := 50 }

theorem c2_witness :
    [alicePrior].find? (fun v => v.email == "alice@x.com") = some alicePrior ∧
    createAccount "Bob B" "alice@x.com" "pass2" 'Y' 5 100 [alicePrior] =
      (.jsonError 400 "User already exists", [alicePrior]) :=
  ⟨by decide,
   c2_duplicate_register_fails_store_unchanged "Bob B" "alice@x.com" "pass2"
     'Y' 5 100 [alicePrior] alicePrior (by decide)⟩

/-- C7: validating a token with the same secret immediately after issuing
it succeeds and returns the account identity embedded at issuance. -/
theorem c7_token_roundtrip (secret now : Nat) (u : User) :
    validateToken secret (jwtSign secret { user := u } now) now =
      .ok { user := u } := by
  simp [validateToken, jwtSign]

/-- C8 (amended): every issued token expires exactly 1 hour (3600 s) after
its issuance time, and validating a token whose signature is authentic at
issuance + 61 minutes (3660 s) fails with ExpiredToken; a token whose
signature is not authentic fails with InvalidToken instead (the signature
is checked first), so expiry is reported only for signature-valid tokens. -/
theorem c8_expiry_one_hour (secret : Nat) (p : TokenPayload) (t : Nat) :
    (jwtSign secret p t).exp = (jwtSign secret p t).iat + 3600 ∧
    validateToken secret (jwtSign secret p t) (t + 3660) =
      .error .expiredToken := by
  refine ⟨rfl, ?_⟩
  simp [validateToken, jwtSign]

/-- A token issued at time 0 (expiry 3600) whose signature segment was
tampered with: the recorded signature names a different secret. -/
def tamperedToken : Token :=
  { payload := { user := alicePrior }, iat := 0, exp := 3600
    sig := { secret := 1, payload := { user := alicePrior }, iat := 0, exp := 3600 } }

/-- C8 counterexample: validating a tampered token at issuance + 61
minutes fails with InvalidToken, not ExpiredToken — the claim's
"regardless of signature validity" does not hold. -/
theorem c8_counterexample :
    validateToken 0 tamperedToken 3660 = .error .invalidToken ∧
    validateToken 0 tamperedToken 3660 ≠ .error .expiredToken := by
  have hval : validateToken 0 tamperedToken 3660 = .error .invalidToken := rfl
  refine ⟨hval, ?_⟩
  rw [hval]
  simp

/-- C10: for every user, the list-all-notes query returns exactly that
user's notes (a permutation of the owner-filtered store, so every element
is owned by the user), ordered with pinned notes before unpinned notes. -/
theorem c10_get_all_notes_exact_and_pinned_first (userId : Nat) (store : List Note) :
    (getAllNotes userId store).Perm (store.filter (fun n => n.userId == userId)) ∧
    (∀ n ∈ getAllNotes userId store, n.userId = userId) ∧
    (getAllNotes userId store).Pairwise
      (fun a b => b.isPinned = true → a.isPinned = true) := by
  unfold getAllNotes
  refine ⟨List.filter_append_perm _ _, ?_, ?_⟩
  · intro n hn
    rcases List.mem_append.mp hn with h | h <;>
      simpa using (List.mem_filter.mp (List.mem_of_mem_filter h)).2
  · rw [List.pairwise_append]
    refine ⟨?_, ?_, ?_⟩
    · apply List.pairwise_of_forall_mem_list
      intro a ha b _ _
      simpa using (List.mem_filter.mp ha).2
    · apply List.pairwise_of_forall_mem_list
      intro a _ b hb hb2
      have := (List.mem_filter.mp hb).2
      simp [hb2] at this
    · intro a ha b _ _
      simpa using (List.mem_filter.mp ha).2

/-- C4: a registration with a fresh email succeeds, answering with the new
account and a token; the stored password is never the raw input password;
and a later login with the same email and raw password succeeds. -/
theorem c4_fresh_register_then_login
    (fullName email password : String) (salt : Char) (secret now now2 : Nat)
    (store : List User)
    (hfresh : store.find? (fun u => u.email == email) = none) :
    createAccount fullName email password salt secret now store =
      (.registerOk (newUser fullName email password salt now store)
        (jwtSign secret { user := newUser fullName email password salt now store } now)
        "Registration Successful",
       store ++ [newUser fullName email password salt now store]) ∧
    (newUser fullName email password salt now store).password ≠ password ∧
    login email password secret now2
        (store ++ [newUser fullName email password salt now store]) =
      .loginOk email
        (jwtSign secret { user := newUser fullName email password salt now store } now2)
        "Login Successfull" := by
  refine ⟨?_, ?_, ?_⟩
  · unfold createAccount
    rw [hfresh]
  · rw [newUser_password]
    exact bcryptHash_ne password salt
  · have hfind : (store ++ [newUser fullName email password salt now store]).find?
        (fun u => u.email == email) =
        some (newUser fullName email password salt now store) := by
      rw [find?_append_none _ _ _ hfresh]
      simp [List.find?, newUser_email]
    unfold login
    rw [hfind]
    simp [newUser_email, newUser_password, bcryptCompare_bcryptHash]

theorem c4_witness :
    ([] : List User).find? (fun u => u.email == "alice@x.com") = none ∧
    (createAccount "Alice A" "alice@x.com" "pass1" 'X' 5 100 [] =
      (.registerOk (newUser "Alice A" "alice@x.com" "pass1" 'X' 100 [])
        (jwtSign 5 { user := newUser "Alice A" "alice@x.com" "pass1" 'X' 100 [] } 100)
        "Registration Successful",
       [] ++ [newUser "Alice A" "alice@x.com" "pass1" 'X' 100 []]) ∧
    (newUser "Alice A" "alice@x.com" "pass1" 'X' 100 []).password ≠ "pass1" ∧
    login "alice@x.com" "pass1" 5 200
        ([] ++ [newUser "Alice A" "alice@x.com" "pass1" 'X' 100 []]) =
      .loginOk "alice@x.com"
        (jwtSign 5 { user := newUser "Alice A" "alice@x.com" "pass1" 'X' 100 [] } 200)
        "Login Successfull") :=
  ⟨rfl, c4_fresh_register_then_login "Alice A" "alice@x.com" "pass1" 'X' 5 100 200 [] rfl⟩

def aliceUser : User := newUser "Alice A" "alice@x.com" "pass1" 'X' 100 []

def aliceToken : Token := jwtSign 5 { user := aliceUser } 100

/-- C9 counterexample: registering and then logging in at the same
timestamp (same second) returns the identical token — `jwt.sign` is
deterministic given payload, secret and issued-at time, so the login token
is not distinct from the registration token. -/
theorem c9_counterexample :
    (createAccount "Alice A" "alice@x.com" "pass1" 'X' 5 100 []).1 =
      .registerOk aliceUser aliceToken "Registration Successful" ∧
    login "alice@x.com" "pass1" 5 100
        (createAccount "Alice A" "alice@x.com" "pass1" 'X' 5 100 []).2 =
      .loginOk "alice@x.com" aliceToken "Login Successfull" := by decide

/-- C9 (amended): a successful login performed at a different timestamp
(second granularity) than registration returns a token distinct from the
registration token; a login within the same second returns the identical
token string. -/
theorem c9_login_token_distinct_at_different_time
    (fullName email password : String) (salt : Char) (secret now now2 : Nat)
    (store : List User)
    (hfresh : store.find? (fun u => u.email == email) = none)
    (hne : now2 ≠ now) :
    createAccount fullName email password salt secret now store =
      (.registerOk (newUser fullName email password salt now store)
        (jwtSign secret { user := newUser fullName email password salt now store } now)
        "Registration Successful",
       store ++ [newUser fullName email password salt now store]) ∧
    login email password secret now2
        (store ++ [newUser fullName email password salt now store]) =
      .loginOk email
        (jwtSign secret { user := newUser fullName email password salt now store } now2)
        "Login Successfull" ∧
    jwtSign secret { user := newUser fullName email password salt now store } now2 ≠
      jwtSign secret { user := newUser fullName email password salt now store } now := by
  obtain ⟨h1, _, h3⟩ := c4_fresh_register_then_login fullName email password
    salt secret now now2 store hfresh
  refine ⟨h1, h3, ?_⟩
  intro h
  exact hne (congrArg Token.iat h)

theorem c9_witness :
    ((([] : List User).find? (fun u => u.email == "alice@x.com") = none) ∧
      (200 : Nat) ≠ 100) ∧
    jwtSign 5 { user := newUser "Alice A" "alice@x.com" "pass1" 'X' 100 [] } 200 ≠
      jwtSign 5 { user := newUser "Alice A" "alice@x.com" "pass1" 'X' 100 [] } 100 :=
  ⟨⟨rfl, by decide⟩,
   (c9_login_token_distinct_at_different_time "Alice A" "alice@x.com" "pass1"
     'X' 5 100 200 [] rfl (by decide)).2.2⟩

/-- C1 counterexample: a successful registration stores the new account
(whose `password` field is the bcrypt hash) and returns a response body
whose `user` field exposes that stored hash directly, outside the token. -/
theorem c1_counterexample :
    (createAccount "Alice A" "alice@x.com" "pass1" 'X' 5 100 []).2 = [aliceUser] ∧
    aliceUser.password ∈
      (createAccount "Alice A" "alice@x.com" "pass1" 'X' 5 100 []).1.exposedStrings := by
  constructor
  · rfl
  · show aliceUser.password ∈ (Response.registerOk aliceUser aliceToken
      "Registration Successful").exposedStrings
    simp [Response.exposedStrings]

/-- C1 (amended): outside registration (whose success response embeds the
full account record, stored hash included, directly in the payload), the
stored password hash appears in no login or get-user response payload
except inside the signed token — provided no stored account's email or
full name coincides with the hash string. -/
theorem c1_hash_confined_outside_registration
    (email password : String) (secret now : Nat) (store : List User)
    (tokenUser u : User) (_hu : u ∈ store)
    (p : String) (c : Char) (hshape : u.password = bcryptHash p c)
    (hnc : ∀ v ∈ store, v.email ≠ u.password ∧ v.fullName ≠ u.password) :
    u.password ∉ (login email password secret now store).exposedStrings ∧
    u.password ∉ (getUser tokenUser store).exposedStrings := by
  have hmsg : ∀ s : String, s.data.head? ≠ some '$' → u.password ≠ s := by
    intro s hs
    rw [hshape]
    exact bcryptHash_ne_of_head p c s hs
  constructor
  · unfold login
    cases hl : store.find? (fun v => v.email == email) with
    | none =>
      simp only [Response.exposedStrings, List.mem_singleton]
      exact hmsg _ (by decide)
    | some v =>
      have hv : v ∈ store := List.mem_of_find?_eq_some hl
      have hve : v.email = email := by
        have := List.find?_some hl
        simpa using this
      show u.password ∉
        (if (v.email == email && bcryptCompare password v.password) = true then
          Response.loginOk email (jwtSign secret { user := v } now) "Login Successfull"
        else Response.jsonError 400 "Invalid Credential").exposedStrings
      by_cases hc : (v.email == email && bcryptCompare password v.password) = true
      · rw [if_pos hc]
        simp only [Response.exposedStrings, List.mem_cons, List.not_mem_nil, or_false]
        rintro (h | h)
        · exact (hnc v hv).1 (hve.trans h.symm)
        · exact hmsg _ (by decide) h
      · rw [if_neg hc]
        simp only [Response.exposedStrings, List.mem_singleton]
        exact hmsg _ (by decide)
  · unfold getUser
    cases hl : store.find? (fun v => v.id == tokenUser.id) with
    | none => simp [Response.exposedStrings]
    | some v =>
      have hv : v ∈ store := List.mem_of_find?_eq_some hl
      simp only [Response.exposedStrings, List.mem_cons, List.not_mem_nil, or_false]
      rintro (h | h | h)
      · exact (hnc v hv).2 h.symm
      · exact (hnc v hv).1 h.symm
      · exact hmsg _ (by decide) h

theorem c1_witness :
    (aliceUser ∈ [aliceUser] ∧
      aliceUser.password = bcryptHash "pass1" 'X' ∧
      (∀ v ∈ [aliceUser], v.email ≠ aliceUser.password ∧
        v.fullName ≠ aliceUser.password)) ∧
    (aliceUser.password ∉
        (login "alice@x.com" "pass1" 5 200 [aliceUser]).exposedStrings ∧
      aliceUser.password ∉ (getUser aliceUser [aliceUser]).exposedStrings) :=
  ⟨⟨by decide, rfl, by decide⟩,
   c1_hash_confined_outside_registration "alice@x.com" "pass1" 5 200
     [aliceUser] aliceUser aliceUser (by decide) "pass1" 'X' rfl (by decide)⟩

/-- C6: with distinct account ids `b ≠ a`, note ids unique in the store,
and a note `n` owned by `a`: invoking edit with `b`'s identity and `n`'s
note id fails and leaves the store unchanged; invoking delete with `b`'s
identity and `n`'s note id fails with "Note not found" and leaves the
store unchanged; and `n` is never returned by `b`'s list-all-notes query —
every operation filters by note id and owner id jointly. -/
theorem c6_ownership_isolation
    (a b : Nat) (n : Note) (store : List Note)
    (hmem : n ∈ store) (howner : n.userId = a) (hab : b ≠ a)
    (huniq : ∀ m ∈ store, m.id = n.id → m = n)
    (title content : Option String) (tags : Option (List String))
    (isPinned : Option Bool) :
    ((editNotes b n.id title content tags isPinned store).2 = store ∧
      (editNotes b n.id title content tags isPinned store).1.isFailure = true) ∧
    deleteNote b n.id store = (.jsonError 400 "Note not found", store) ∧
    n ∉ getAllNotes b store := by
  have hne : ∀ m ∈ store, ¬(m.id = n.id ∧ m.userId = b) := by
    intro m hm ⟨h1, h2⟩
    have := huniq m hm h1
    subst this
    exact hab (h2 ▸ howner)
  have hfind : store.find? (fun m => m.id == n.id && m.userId == b) = none := by
    rw [List.find?_eq_none]
    intro m hm hcontra
    simp only [Bool.and_eq_true, beq_iff_eq] at hcontra
    exact hne m hm hcontra
  have hfind2 : store.find? (fun m => m.userId == b && m.id == n.id) = none := by
    rw [List.find?_eq_none]
    intro m hm hcontra
    simp only [Bool.and_eq_true, beq_iff_eq] at hcontra
    exact hne m hm ⟨hcontra.2, hcontra.1⟩
  refine ⟨?_, ?_, ?_⟩
  · unfold editNotes
    by_cases hch : (!truthyStr title && !truthyStr content && !tags.isSome) = true
    · rw [if_pos hch]
      exact ⟨rfl, rfl⟩
    · rw [if_neg hch, hfind]
      exact ⟨rfl, rfl⟩
  · unfold deleteNote
    rw [hfind2]
  · intro hmem2
    unfold getAllNotes at hmem2
    rcases List.mem_append.mp hmem2 with h | h <;>
    · have hmine := List.mem_of_mem_filter h
      have : (n.userId == b) = true := (List.mem_filter.mp hmine).2
      rw [beq_iff_eq] at this
      exact hab (this ▸ howner)

def noteOfA : Note :=
  { id := 7, title := "t", content := "c", tags := [], isPinned := false
    userId := 1, createdOn := 0 }

theorem c6_witness :
    (noteOfA ∈ [noteOfA] ∧ noteOfA.userId = 1 ∧ (2 : Nat) ≠ 1 ∧
      (∀ m ∈ [noteOfA], m.id = noteOfA.id → m = noteOfA)) ∧
    (((editNotes 2 noteOfA.id (some "new") none none none [noteOfA]).2 = [noteOfA] ∧
      (editNotes 2 noteOfA.id (some "new") none none none [noteOfA]).1.isFailure = true) ∧
    deleteNote 2 noteOfA.id [noteOfA] = (.jsonError 400 "Note not found", [noteOfA]) ∧
    noteOfA ∉ getAllNotes 2 [noteOfA]) :=
  ⟨⟨by decide, rfl, by decide, by decide⟩,
   c6_ownership_isolation 1 2 noteOfA [noteOfA] (by decide) rfl (by decide)
     (by decide) (some "new") none none none⟩

/-- C5 counterexample: the get-user handler's unknown-user failure path
answers with a bare status 401 and an empty body — no explicit error
object at all. -/
theorem c5_counterexample :
    (getUser aliceUser []).isFailure = true ∧
    (getUser aliceUser []).hasExplicitError = false ∧
    getUser aliceUser [] = .emptyStatus 401 := by decide

/-- C5 (amended): every failure path of registration, the registration
catch block, login, edit-note and delete-note answers with an explicit
error object (`{ error: true, message }` with a non-empty message) — with
the single exception of get-user, whose unknown-user path answers with a
bare status 401 and no body. -/
theorem c5_failures_explicit_except_get_user :
    (∀ fullName email password salt secret now store,
      (createAccount fullName email password salt secret now store).1.isFailure = true →
      (createAccount fullName email password salt secret now store).1.hasExplicitError = true) ∧
    (∀ e, (createAccountCatch e).isFailure = true ∧
      (createAccountCatch e).hasExplicitError = true) ∧
    (∀ email password secret now store,
      (login email password secret now store).isFailure = true →
      (login email password secret now store).hasExplicitError = true) ∧
    (∀ userId noteId title content tags isPinned store,
      (editNotes userId noteId title content tags isPinned store).1.isFailure = true →
      (editNotes userId noteId title content tags isPinned store).1.hasExplicitError = true) ∧
    (∀ userId noteId store,
      (deleteNote userId noteId store).1.isFailure = true →
      (deleteNote userId noteId store).1.hasExplicitError = true) ∧
    (∀ tokenUser store,
      (getUser tokenUser store).isFailure = true →
      getUser tokenUser store = .emptyStatus 401) := by
  refine ⟨?_, ?_, ?_, ?_, ?_, ?_⟩
  · intro fullName email password salt secret now store
    unfold createAccount
    cases store.find? (fun u => u.email == email) <;> intro h <;> first | rfl | cases h
  · intro e
    exact ⟨rfl, rfl⟩
  · intro email password secret now store
    unfold login
    cases store.find? (fun u => u.email == email) with
    | none => intro _; rfl
    | some v =>
      show ((if (v.email == email && bcryptCompare password v.password) = true then
          Response.loginOk email (jwtSign secret { user := v } now) "Login Successfull"
        else Response.jsonError 400 "Invalid Credential").isFailure = true) →
        ((if (v.email == email && bcryptCompare password v.password) = true then
          Response.loginOk email (jwtSign secret { user := v } now) "Login Successfull"
        else Response.jsonError 400 "Invalid Credential").hasExplicitError = true)
      by_cases hc : (v.email == email && bcryptCompare password v.password) = true
      · rw [if_pos hc]; intro h; cases h
      · rw [if_neg hc]; intro _; rfl
  · intro userId noteId title content tags isPinned store
    unfold editNotes
    by_cases hch : (!truthyStr title && !truthyStr content && !tags.isSome) = true
    · rw [if_pos hch]; intro _; rfl
    · rw [if_neg hch]
      cases store.find? (fun n => n.id == noteId && n.userId == userId) with
      | none => intro _; rfl
      | some note => intro h; cases h
  · intro userId noteId store
    unfold deleteNote
    cases store.find? (fun n => n.userId == userId && n.id == noteId) with
    | none => intro _; rfl
    | some _ => intro h; cases h
  · intro tokenUser store
    unfold getUser
    cases store.find? (fun u => u.id == tokenUser.id) with
    | none => intro _; rfl
    | some _ => intro h; cases h

theorem c5_witness :
    (login "alice@x.com" "pass1" 5 100 []).isFailure = true ∧
    (login "alice@x.com" "pass1" 5 100 []).hasExplicitError = true :=
  ⟨by decide,
   c5_failures_explicit_except_get_user.2.2.1 "alice@x.com" "pass1" 5 100 []
     (by decide)⟩

/-- C3 counterexample: the live `userSchema` declares no unique constraint
on `email`, and the registration catch block translates a duplicate-key
store failure into a generic 500 "Internal Server Error", not the
DuplicateAccount error. -/
theorem c3_counterexample :
    schemaFieldUnique "email" = false ∧
    createAccountCatch .duplicateKey = .jsonError 500 "Internal Server Error" ∧
    createAccountCatch .duplicateKey ≠ .jsonError 400 "User already exists" := by
  refine ⟨by decide, rfl, ?_⟩
  intro h
  exact absurd (congrArg Response.exposedStrings h) (by decide)

/-- C3 (amended): email uniqueness at registration is enforced only by the
handler's application-level pre-check (`findOne` by email, answering
DuplicateAccount); the schema declares no unique constraint on email, and
every store failure raised during Register — a duplicate-key failure
included — is translated into a generic 500 internal error. -/
theorem c3_uniqueness_by_precheck_only
    (fullName email password : String) (salt : Char) (secret now : Nat)
    (store : List User) (u : User)
    (hdup : store.find? (fun v => v.email == email) = some u) :
    schemaFieldUnique "email" = false ∧
    (∀ e, createAccountCatch e = .jsonError 500 "Internal Server Error") ∧
    createAccount fullName email password salt secret now store =
      (.jsonError 400 "User already exists", store) := by
  refine ⟨by decide, fun _ => rfl, ?_⟩
  unfold createAccount
  rw [hdup]

theorem c3_witness :
    [alicePrior].find? (fun v => v.email == "alice@x.com") = some alicePrior ∧
    (schemaFieldUnique "email" = false ∧
      (∀ e, createAccountCatch e = .jsonError 500 "Internal Server Error") ∧
      createAccount "Carol C" "alice@x.com" "pass3" 'Z' 5 100 [alicePrior] =
        (.jsonError 400 "User already exists", [alicePrior])) :=
  ⟨by decide,
   c3_uniqueness_by_precheck_only "Carol C" "alice@x.com" "pass3" 'Z' 5 100
     [alicePrior] alicePrior (by decide)⟩

end NoteApp
